import Mathlib

/-!
Shallow embedding of the credential-manager component of the executor
repository (Go package `containerstore`): the rotation scheduler, the
certificate forge (`generateCreds`, `createCertificateTemplate`,
`pemEncode`), the handler fan-outs (`CreateCredDir`, `RemoveCredDir`,
the `Update`/`Close` loops of the runner), the runner event loop, and
the no-op manager.

Go `time.Duration` is an `int64` count of nanoseconds; it is modelled as
`Int`, with Go's truncating integer division rendered as `Int.tdiv`.
Go's `error` interface is modelled as `Option` (with `none` for the nil
interface value) or `Except` where a value is also produced.  External
library calls (RSA key generation, UUID generation, X.509 signing, IP
parsing) are oracles supplied as parameters, so theorems quantify over
all of their possible outcomes.
-/

namespace ContainerStore

/-- Go `time.Duration` in nanoseconds. -/
abbrev Duration := Int

/-- Go `time.Minute` in nanoseconds. -/
def Minute : Duration := 60000000000

/-- Go `time.Hour` in nanoseconds. -/
def Hour : Duration := 3600000000000

/-- Embedding of `calculateCredentialRotationPeriod`.  Go division of
`time.Duration` (an `int64`) truncates toward zero, hence `Int.tdiv`. -/
def calculateCredentialRotationPeriod (validityPeriod : Duration) : Duration :=
  if validityPeriod > 4 * Hour then
    validityPeriod - 30 * Minute
  else
    validityPeriod - Int.tdiv validityPeriod 8

/-! ## `RemoveCredDir`: fan-out with `multierror` aggregation

`RemoveCredDir` builds a `*multierror.Error` with a custom `ErrorFormat`
that joins the collected messages with `"; "`, appends every handler's
`RemoveDir` result (`multierror.Append` drops nil errors), and returns
the `*multierror.Error` pointer itself as the `error` interface value.
A handler result is `Option String` (`none` = nil error); the returned
`error` interface is `Option MultiError`, where `none` stands for a nil
interface value. -/

/-- The state of a `*multierror.Error`: the collected non-nil errors,
in append order. -/
structure MultiError where
  errors : List String
deriving DecidableEq

/-- Embedding of `multierror.Append err handlerErr`: a nil incoming error is skipped,
a non-nil one is appended. -/
def multierrorAppend (err : MultiError) (handlerErr : Option String) : MultiError :=
  match handlerErr with
  | none => err
  | some e => ⟨err.errors ++ [e]⟩

/-- The custom `ErrorFormat` installed by `RemoveCredDir`: fold over the
collected errors, separating messages with `"; "` (no separator is added
while the accumulator is still empty). -/
def errorFormat (errs : List String) : String :=
  errs.foldl (fun s e => (if s = "" then s else s ++ "; ") ++ e) ""

/-- The message of the combined error, via the custom `ErrorFormat`. -/
def MultiError.message (e : MultiError) : String := errorFormat e.errors

/-- Embedding of `credManager.RemoveCredDir`, applied to the list of the
handlers' `RemoveDir` results in registration order.  The loop appends
every result; the function then returns the `*multierror.Error` pointer,
which is a non-nil `error` interface value even when no handler failed
(the code does not call `ErrorOrNil`). -/
def RemoveCredDir (results : List (Option String)) : Option MultiError :=
  some (results.foldl multierrorAppend ⟨[]⟩)

/-! ## `CreateCredDir`: fan-out with fail-fast

A handler's `CreateDir` result is `(mounts, envVars, err)`; mounts and
environment variables are opaque type parameters. -/

/-- Embedding of `credManager.CreateCredDir`, applied to the handlers'
`CreateDir` results in registration order: on the first non-nil error it
returns `(nil, nil, err)` at once; otherwise it appends each handler's
mounts and environment variables and returns them with a nil error. -/
def CreateCredDir {M E : Type} :
    List (List M × List E × Option String) → List M × List E × Option String
  | [] => ([], [], none)
  | (_, _, some e) :: _ => ([], [], some e)
  | (hm, he, none) :: rest =>
    match CreateCredDir rest with
    | (ms, es, none) => (hm ++ ms, he ++ es, none)
    | (_, _, some e) => ([], [], some e)

/-- How many handlers the `CreateCredDir` loop actually invokes before
returning: all of them, or every handler up to and including the first
one whose `CreateDir` fails. -/
def createCredDirCalls {M E : Type} : List (List M × List E × Option String) → Nat
  | [] => 0
  | (_, _, some _) :: _ => 1
  | (_, _, none) :: rest => 1 + createCredDirCalls rest

/-! ## The certificate forge: `createCertificateTemplate`, `pemEncode`,
`generateCreds`

X.509 data is modelled structurally.  `net.ParseIP` is an oracle of type
`String → IP` for an arbitrary type `IP` of parsed addresses.  The DER
bytes produced by `x509.CreateCertificate` are determined by the signed
template and the embedded public key, so they are modelled as that pair;
`caCert.Raw` is an opaque `Nat`. -/

/-- An RSA public key (abstract). -/
structure PublicKey where
  modulus : Nat
deriving DecidableEq

/-- An RSA private key (abstract); `Public` projects its public half,
as `privateKey.Public()` does in Go. -/
structure RSAPrivateKey where
  modulus : Nat
  dExp : Nat
deriving DecidableEq

/-- Embedding of `privateKey.Public()`. -/
def RSAPrivateKey.Public (k : RSAPrivateKey) : PublicKey := ⟨k.modulus⟩

/-- Embedding of `pkix.Name`, restricted to the fields the code sets. -/
structure PkixName where
  CommonName : String
  OrganizationalUnit : List String
deriving DecidableEq

/-- Go `x509.KeyUsageDigitalSignature`. -/
def KeyUsageDigitalSignature : Nat := 1

/-- Go `x509.KeyUsageKeyEncipherment`. -/
def KeyUsageKeyEncipherment : Nat := 4

/-- Go `x509.KeyUsageKeyAgreement`. -/
def KeyUsageKeyAgreement : Nat := 16

/-- Go `x509.ExtKeyUsageServerAuth`. -/
def ExtKeyUsageServerAuth : Nat := 1

/-- Go `x509.ExtKeyUsageClientAuth`. -/
def ExtKeyUsageClientAuth : Nat := 2

/-- An `x509.Certificate` template, restricted to the fields the code
sets.  Times are `Int` (nanoseconds since an arbitrary epoch, matching
the Go clock abstraction); `IP` is the type of parsed IP addresses. -/
structure Certificate (IP : Type) where
  SerialNumber : Int
  Subject : PkixName
  IPAddresses : List IP
  DNSNames : List String
  NotBefore : Int
  NotAfter : Int
  KeyUsage : Nat
  ExtKeyUsage : List Nat
deriving DecidableEq

/-- Embedding of `createCertificateTemplate`; `parseIP` stands for
`net.ParseIP`. -/
def createCertificateTemplate {IP : Type} (parseIP : String → IP)
    (ipaddress guid : String) (notBefore notAfter : Int)
    (organizationalUnits : List String) : Certificate IP :=
  { SerialNumber := 0
    Subject := { CommonName := guid, OrganizationalUnit := organizationalUnits }
    IPAddresses := if ipaddress.length = 0 then [] else [parseIP ipaddress]
    DNSNames := [guid]
    NotBefore := notBefore
    NotAfter := notAfter
    KeyUsage := KeyUsageDigitalSignature ||| KeyUsageKeyEncipherment ||| KeyUsageKeyAgreement
    ExtKeyUsage := [ExtKeyUsageClientAuth, ExtKeyUsageServerAuth] }

/-- The result of `x509.CreateCertificate`: DER bytes determined by the
signed template and the leaf's public key. -/
structure SignedCertificate (IP : Type) where
  template : Certificate IP
  publicKey : PublicKey
deriving DecidableEq

/-- The byte payload of a PEM block: the DER of the signed leaf, the raw
DER of the CA certificate (`caCert.Raw`, opaque), or the PKCS#1 encoding
of the private key (`x509.MarshalPKCS1PrivateKey`, determined by the
key). -/
inductive DERBytes (IP : Type) where
  | leaf (c : SignedCertificate IP)
  | caRaw (bytes : Nat)
  | pkcs1 (k : RSAPrivateKey)
deriving DecidableEq

/-- One PEM block, as written by `pem.Encode`. -/
structure PEMBlock (IP : Type) where
  blockType : String
  bytes : DERBytes IP
deriving DecidableEq

/-- The constant `certificatePEMBlockType`. -/
def certificatePEMBlockType : String := "CERTIFICATE"

/-- The constant `privateKeyPEMBlockType`. -/
def privateKeyPEMBlockType : String := "RSA PRIVATE KEY"

/-- Embedding of `pemEncode`: append one block of the given type to the
writer (a `bytes.Buffer`, modelled as the list of blocks written so
far).  With a buffer writer `pem.Encode` cannot fail. -/
def pemEncode {IP : Type} (bytes : DERBytes IP) (blockType : String)
    (writer : List (PEMBlock IP)) : List (PEMBlock IP) :=
  writer ++ [⟨blockType, bytes⟩]

/-- The `Credential` value object.  Its Go fields are the `String`
contents of the two buffers; each is the concatenation of the PEM blocks
written to it. -/
structure Credential (IP : Type) where
  Cert : List (PEMBlock IP)
  Key : List (PEMBlock IP)
deriving DecidableEq

/-- Embedding of `executor.Container.CertificateProperties`. -/
structure CertificateProperties where
  OrganizationalUnit : List String
deriving DecidableEq

/-- Embedding of `executor.Container`, restricted to the fields the code reads. -/
structure Container where
  Guid : String
  InternalIP : String
  ExternalIP : String
  CertificateProperties : CertificateProperties
deriving DecidableEq

/-- The environment of one `generateCreds` call: the outcomes of its
external effects.  `keyGen` is the result of `rsa.GenerateKey`,
`uuidGen` of `uuid.NewV4` (the 128-bit value the serial number is set
from), `signErr` a failure of `x509.CreateCertificate`, `now` the value
of `c.clock.Now()` read for `startValidity`, `validityPeriod` and
`caCertRaw` the manager's configuration. -/
structure GenerateEnv (IP : Type) where
  parseIP : String → IP
  keyGen : Except String RSAPrivateKey
  uuidGen : Except String Nat
  signErr : Option String
  now : Int
  validityPeriod : Duration
  caCertRaw : Nat

/-- Embedding of `credManager.generateCreds`. -/
def generateCreds {IP : Type} (env : GenerateEnv IP) (container : Container)
    (certGUID : String) : Except String (Credential IP) :=
  match env.keyGen with
  | .error e => .error e
  | .ok privateKey =>
    let ipForCert :=
      if container.InternalIP.length = 0 then container.ExternalIP
      else container.InternalIP
    let startValidity := env.now
    let template := createCertificateTemplate env.parseIP ipForCert certGUID
      startValidity (startValidity + env.validityPeriod)
      container.CertificateProperties.OrganizationalUnit
    match env.uuidGen with
    | .error e => .error e
    | .ok guidVal =>
      let template := { template with SerialNumber := (guidVal : Int) }
      match env.signErr with
      | some e => .error e
      | none =>
        let certBytes : DERBytes IP := .leaf ⟨template, privateKey.Public⟩
        let privateKeyBytes : DERBytes IP := .pkcs1 privateKey
        let keyBuf := pemEncode privateKeyBytes privateKeyPEMBlockType []
        let certificateBuf := pemEncode certBytes certificatePEMBlockType []
        let certificateBuf := pemEncode (.caRaw env.caCertRaw) certificatePEMBlockType certificateBuf
        .ok { Cert := certificateBuf, Key := keyBuf }

/-! ## The runner event loop

`credManager.Runner` performs an initial issuance cycle, signals
readiness, then blocks on a select over the rotation timer and the
signal channel.  It is modelled as a trace semantics: the observable
side effects (the `generateCreds` calls, the metric emissions, the
readiness close, and the handler `Update`/`Close` invocations) form a
trace of `Action`s, and the scheduler's choices (timer fire vs. signal
delivery) form a list of `Event`s consumed in order.  The outcomes of
the external calls are oracles in a `RunnerEnv`: `gen k` is the result
of the `k`-th `generateCreds` call, `upd k i` the error of handler `i`'s
`Update` in cycle `k`, and `cls i` the (ignored) error of handler `i`'s
`Close`.  Credentials are an opaque type parameter `Cred`. -/

/-- One observable side effect of the runner.  `genCall` records a
`generateCreds` call with the certificate GUID it was given and whether
it succeeded; `update`/`closeCall` record a handler invocation with the
credential it carried and whether the handler returned a nil error. -/
inductive Action (Cred : Type) where
  | genCall (certGUID : String) (ok : Bool)
  | incrementFailed
  | incrementSucceeded
  | sendDuration
  | ready
  | update (i : Nat) (c : Cred) (ok : Bool)
  | closeCall (i : Nat) (c : Cred) (ok : Bool)
deriving DecidableEq

/-- One scheduler choice in the select loop. -/
inductive Event where
  | timerFired
  | signalReceived (sig : String)
deriving DecidableEq

/-- The status of a runner after consuming its events: still blocked in
the select, or returned with a final `error` value. -/
inductive RunResult where
  | blocked
  | returned (err : Option String)
deriving DecidableEq

/-- Oracles for one run of `credManager.Runner`. -/
structure RunnerEnv (Cred : Type) where
  guid : String
  numHandlers : Nat
  gen : Nat → Except String Cred
  upd : Nat → Nat → Option String
  cls : Nat → Option String

/-- The `Update` fan-out loop (`for _, h := range c.handlers`): invoke
each listed handler in order, returning at the first non-nil error and
skipping the rest. -/
def updateFanout {Cred : Type} (upd : Nat → Option String) (c : Cred) :
    List Nat → List (Action Cred) × Option String
  | [] => ([], none)
  | i :: rest =>
    match upd i with
    | some e => ([.update i c false], some e)
    | none =>
      let (tr, r) := updateFanout upd c rest
      (.update i c true :: tr, r)

/-- The `Close` fan-out loop of the signal branch: every handler is
invoked; the returned error is discarded (only whether it was nil is
recorded in the trace). -/
def closeFanout {Cred : Type} (cls : Nat → Option String) (c : Cred) (n : Nat) :
    List (Action Cred) :=
  (List.range n).map fun i => .closeCall i c (cls i).isNone

/-- The code before the select loop: generate, and on failure increment
the failed counter and return the error; on success run the `Update`
fan-out, and only after it succeeds increment the succeeded counter,
send the duration, arm the timer and close `ready`.  The second
component is `some r` when the runner returns with result `r`, `none`
when it proceeds into the loop. -/
def runInitial {Cred : Type} (env : RunnerEnv Cred) :
    List (Action Cred) × Option (Option String) :=
  match env.gen 0 with
  | .error e => ([.genCall env.guid false, .incrementFailed], some (some e))
  | .ok c =>
    let (tr, r) := updateFanout (env.upd 0) c (List.range env.numHandlers)
    match r with
    | some e => (.genCall env.guid true :: tr, some (some e))
    | none =>
      (.genCall env.guid true :: (tr ++ [.incrementSucceeded, .sendDuration, .ready]), none)

/-- The `<-regenCertTimer.C()` branch of the select: generate, and on
failure increment the failed counter and return the error; on success
increment the succeeded counter and send the duration first, then run
the `Update` fan-out (returning its error if any), then rearm the
timer. -/
def runTimerCycle {Cred : Type} (env : RunnerEnv Cred) (k : Nat) :
    List (Action Cred) × Option (Option String) :=
  match env.gen k with
  | .error e => ([.genCall env.guid false, .incrementFailed], some (some e))
  | .ok c =>
    let (tr, r) := updateFanout (env.upd k) c (List.range env.numHandlers)
    ([.genCall env.guid true, .incrementSucceeded, .sendDuration] ++ tr,
      match r with
      | some e => some (some e)
      | none => none)

/-- The `<-signals` branch of the select: generate with an empty
`certGUID`, and on failure increment the failed counter and return the
error; on success `Close` every handler (errors ignored) and return
nil. -/
def runSignalCycle {Cred : Type} (env : RunnerEnv Cred) (k : Nat) :
    List (Action Cred) × Option String :=
  match env.gen k with
  | .error e => ([.genCall "" false, .incrementFailed], some e)
  | .ok c => (.genCall "" true :: closeFanout env.cls c env.numHandlers, none)

/-- The select loop, consuming scheduler events in order; `k` numbers
the next `generateCreds` call. -/
def runEvents {Cred : Type} (env : RunnerEnv Cred) :
    Nat → List Event → List (Action Cred) × RunResult
  | _, [] => ([], .blocked)
  | k, .timerFired :: rest =>
    match runTimerCycle env k with
    | (tr, some res) => (tr, .returned res)
    | (tr, none) =>
      let (tr2, out) := runEvents env (k + 1) rest
      (tr ++ tr2, out)
  | k, .signalReceived _ :: _ =>
    let (tr, r) := runSignalCycle env k
    (tr, .returned r)

/-- Embedding of the `ifrit.RunFunc` body of `credManager.Runner`: the
initial cycle, then the select loop. -/
def runnerRun {Cred : Type} (env : RunnerEnv Cred) (events : List Event) :
    List (Action Cred) × RunResult :=
  match runInitial env with
  | (tr, some res) => (tr, .returned res)
  | (tr, none) =>
    let (tr2, out) := runEvents env 1 events
    (tr ++ tr2, out)

/-! ## The no-op manager (`noopManager`) -/

/-- Embedding of `noopManager.CreateCredDir`: it returns `nil, nil, nil`. -/
def noopCreateCredDir (M E : Type) : List M × List E × Option String := ([], [], none)

/-- Embedding of `noopManager.RemoveCredDir`: it returns `nil`. -/
def noopRemoveCredDir : Option String := none

/-- Embedding of the `ifrit.RunFunc` body of `noopManager.Runner`: close
`ready` immediately, block on the signal channel, and return nil once a
signal arrives.  The argument is the list of delivered signals; the
trace records readiness and nothing else (no credential generation, no
handler call). -/
def noopRunner (Cred : Type) (signals : List String) : List (Action Cred) × RunResult :=
  match signals with
  | [] => ([.ready], .blocked)
  | _ :: _ => ([.ready], .returned none)

/-! ## Theorems -/

/-- C5: for every validity period `p` (a nonnegative duration), the
rotation delay equals `p - 30` minutes when `p` exceeds 4 hours, and
otherwise `p - p/8` with the flooring division (which on the
nonnegative values of Go's `time.Duration` coincides with the type's
truncating division). -/
theorem calculateCredentialRotationPeriod_spec (p : Duration) (hp : 0 ≤ p) :
    calculateCredentialRotationPeriod p =
      if 4 * Hour < p then p - 30 * Minute else p - Int.fdiv p 8 := by
  unfold calculateCredentialRotationPeriod
  split
  · rfl
  · rw [Int.fdiv_eq_tdiv hp (by decide)]

/-- Witness for C5 at the concrete validity periods of 2 hours and 5
hours. -/
theorem calculateCredentialRotationPeriod_spec_witness :
    (0 ≤ (2 * Hour : Duration) ∧
      calculateCredentialRotationPeriod (2 * Hour) =
        if 4 * Hour < (2 * Hour : Duration) then 2 * Hour - 30 * Minute
        else 2 * Hour - Int.fdiv (2 * Hour) 8) ∧
    (0 ≤ (5 * Hour : Duration) ∧
      calculateCredentialRotationPeriod (5 * Hour) =
        if 4 * Hour < (5 * Hour : Duration) then 5 * Hour - 30 * Minute
        else 5 * Hour - Int.fdiv (5 * Hour) 8) :=
  ⟨⟨by decide, calculateCredentialRotationPeriod_spec (2 * Hour) (by decide)⟩,
   ⟨by decide, calculateCredentialRotationPeriod_spec (5 * Hour) (by decide)⟩⟩

/-- C1: evaluation of `RemoveCredDir` exhibiting the divergence from the
claim.  With three handlers none of which fails, the function still
returns a non-nil error interface value (the `*multierror.Error` is
returned without `ErrorOrNil`), so "no handler fails implies no error"
is false; the aggregation part of the claim does hold: with failures
`"e1"` and `"e3"` every handler is still processed and the combined
message is `"e1; e3"`. -/
theorem RemoveCredDir_no_failure_still_errors :
    RemoveCredDir [none, none, none] = some ⟨[]⟩ ∧
    RemoveCredDir [none, none, none] ≠ none ∧
    RemoveCredDir [some "e1", none, some "e3"] = some ⟨["e1", "e3"]⟩ ∧
    MultiError.message ⟨["e1", "e3"]⟩ = "e1; e3" := by
  refine ⟨rfl, by decide, rfl, by decide⟩

/-- One handler whose `Update` always fails while credential generation
always succeeds: the environment of the C2 counterexample run. -/
def c2Env : RunnerEnv Unit :=
  ⟨"container-1", 1, fun _ => .ok (), fun _ _ => some "update failed", fun _ => none⟩

/-- C2: evaluation of the runner exhibiting the divergence from the
claim.  In the initial issuance cycle of `c2Env`, credential generation
succeeds (`genCall _ true`) but handler 0's `Update` fails, and the
runner returns before emitting any counter: the trace contains neither
`incrementSucceeded` nor `incrementFailed`, so this issuance attempt
emits no counter at all. -/
theorem runner_initial_cycle_emits_no_counter :
    runnerRun c2Env [] =
      ([.genCall "container-1" true, .update 0 () false],
        .returned (some "update failed")) ∧
    Action.incrementSucceeded ∉ (runnerRun c2Env []).1 ∧
    Action.incrementFailed ∉ (runnerRun c2Env []).1 := by
  refine ⟨rfl, by decide, by decide⟩

/-- One handler whose `Update` always succeeds, with credential
generation always succeeding: the environment of the C3 counterexample
run. -/
def c3Env : RunnerEnv Unit :=
  ⟨"container-1", 1, fun _ => .ok (), fun _ _ => none, fun _ => none⟩

/-- C3: evaluation of the runner exhibiting the divergence from the
claim.  In the initial issuance cycle of `c3Env` the handler `Update`
fan-out happens strictly before the success counter and duration sample
are emitted, so telemetry does not precede the fan-out in the initial
cycle (the timer-fired cycle, by contrast, emits telemetry first, as the
second conjunct shows). -/
theorem runner_initial_cycle_fanout_before_metrics :
    runnerRun c3Env [] =
      ([.genCall "container-1" true, .update 0 () true, .incrementSucceeded,
        .sendDuration, .ready], .blocked) ∧
    runTimerCycle c3Env 1 =
      ([.genCall "container-1" true, .incrementSucceeded, .sendDuration,
        .update 0 () true], none) ∧
    (runnerRun c3Env []).1.indexOf (Action.update 0 () true) <
      (runnerRun c3Env []).1.indexOf (Action.incrementSucceeded : Action Unit) := by
  refine ⟨rfl, rfl, by decide⟩

/-- C4: when the runner receives a stop signal it runs the signal
branch: it generates one final credential with an empty `certGUID`; if
that generation succeeds, every handler `i < numHandlers` receives
exactly one `Close` call carrying that credential, the `Close` errors
(`env.cls`) do not influence the nil result, and the runner returns
without error; if the generation fails, the failed counter is
incremented, the error is returned, and the trace contains no `Close`
call. -/
theorem runner_signal_shutdown {Cred : Type} (env : RunnerEnv Cred) (k : Nat)
    (rest : List Event) (sig : String) :
    runEvents env k (.signalReceived sig :: rest) =
      ((runSignalCycle env k).1, .returned (runSignalCycle env k).2) ∧
    (∀ c, env.gen k = .ok c →
      runSignalCycle env k =
        (.genCall "" true ::
          (List.range env.numHandlers).map (fun i => .closeCall i c (env.cls i).isNone),
          none)) ∧
    (∀ e, env.gen k = .error e →
      runSignalCycle env k = ([.genCall "" false, .incrementFailed], some e)) := by
  refine ⟨?_, ?_, ?_⟩
  · rcases h : runSignalCycle env k with ⟨tr, r⟩
    simp [runEvents, h]
  · intro c hc
    simp [runSignalCycle, hc, closeFanout]
  · intro e he
    simp [runSignalCycle, he]

/-- Two handlers, generation succeeding, the first handler's `Close`
failing: the concrete environment of the C4 witness. -/
def c4Env : RunnerEnv Unit :=
  ⟨"g", 2, fun _ => .ok (), fun _ _ => none,
    fun i => if i = 0 then some "close failed" else none⟩

/-- Witness for C4: in `c4Env` the successful-generation branch yields a
`Close` call to each of the two handlers and a nil result, although
handler 0's `Close` fails. -/
theorem runner_signal_shutdown_witness :
    runSignalCycle c4Env 0 =
      (.genCall "" true ::
        (List.range c4Env.numHandlers).map
          (fun i => .closeCall i () (c4Env.cls i).isNone), none) :=
  (runner_signal_shutdown c4Env 0 [] "SIGTERM").2.1 () rfl

/-- C10: the no-op manager is trivial: `CreateCredDir` yields nil
mounts, nil environment variables and a nil error, `RemoveCredDir`
yields a nil error, and the runner signals readiness immediately with a
trace containing no credential generation and no handler call, stays
blocked while no signal has arrived, and returns a nil error once any
signal arrives. -/
theorem noopManager_trivial (sig : String) (rest : List String) :
    noopCreateCredDir String String = ([], [], none) ∧
    noopRemoveCredDir = none ∧
    noopRunner Unit [] = ([.ready], .blocked) ∧
    noopRunner Unit (sig :: rest) = ([.ready], .returned none) :=
  ⟨rfl, rfl, rfl, rfl⟩

/-- Helper for C8: when every handler before some point succeeds and
that handler's `CreateDir` fails, `CreateCredDir` returns `(nil, nil,`
that error`)`, having invoked exactly the handlers up to and including
the failing one. -/
theorem CreateCredDir_first_error {M E : Type}
    (pre : List (List M × List E × Option String)) (hm : List M) (he : List E)
    (e : String) (post : List (List M × List E × Option String))
    (hpre : ∀ r ∈ pre, r.2.2 = none) :
    CreateCredDir (pre ++ (hm, he, some e) :: post) = ([], [], some e) ∧
      createCredDirCalls (pre ++ (hm, he, some e) :: post) = pre.length + 1 := by
  induction pre with
  | nil => exact ⟨rfl, rfl⟩
  | cons r pre ih =>
    obtain ⟨rm, re, rerr⟩ := r
    have hr : rerr = none := hpre (rm, re, rerr) (List.mem_cons_self _ _)
    subst hr
    have ih' := ih (fun x hx => hpre x (List.mem_cons_of_mem _ hx))
    constructor
    · simp only [List.cons_append, CreateCredDir, List.append_eq, ih'.1]
    · simp only [List.cons_append, createCredDirCalls, List.append_eq, ih'.2,
        List.length_cons]
      omega

/-- Helper for C8: when every handler in the index list `l1` succeeds
and handler `j` fails with error `e`, the `Update` fan-out invokes the
`l1` handlers and then `j`, returns `e`, and skips the handlers in
`l2`. -/
theorem updateFanout_first_error {Cred : Type} (upd : Nat → Option String) (c : Cred)
    (l1 l2 : List Nat) (j : Nat) (e : String)
    (hl1 : ∀ i ∈ l1, upd i = none) (hj : upd j = some e) :
    updateFanout upd c (l1 ++ j :: l2) =
      (l1.map (fun i => Action.update i c true) ++ [Action.update j c false], some e) := by
  induction l1 with
  | nil => simp [updateFanout, hj]
  | cons i l1 ih =>
    have hi : upd i = none := hl1 i (List.mem_cons_self _ _)
    have ih' := ih (fun x hx => hl1 x (List.mem_cons_of_mem _ hx))
    simp [updateFanout, hi, ih']

/-- C8: the `CreateCredDir` and `Update` fan-outs invoke handlers in
registration order and stop at the first handler that fails: after a
succeeding prefix `pre`, a failing handler makes `CreateCredDir` return
that error with nil mounts and nil environment variables, invoking
exactly `pre.length + 1` handlers; and the `Update` fan-out's trace is
one successful `update` per handler of the succeeding prefix followed by
the failing `update`, with the remaining handlers skipped and no
rollback action, returning the first error. -/
theorem createDir_update_fail_fast {M E Cred : Type}
    (pre : List (List M × List E × Option String)) (hm : List M) (he : List E)
    (e : String) (post : List (List M × List E × Option String))
    (hpre : ∀ r ∈ pre, r.2.2 = none)
    (upd : Nat → Option String) (c : Cred) (l1 l2 : List Nat) (j : Nat) (e2 : String)
    (hl1 : ∀ i ∈ l1, upd i = none) (hj : upd j = some e2) :
    (CreateCredDir (pre ++ (hm, he, some e) :: post) = ([], [], some e) ∧
      createCredDirCalls (pre ++ (hm, he, some e) :: post) = pre.length + 1) ∧
    updateFanout upd c (l1 ++ j :: l2) =
      (l1.map (fun i => Action.update i c true) ++ [Action.update j c false], some e2) :=
  ⟨CreateCredDir_first_error pre hm he e post hpre,
   updateFanout_first_error upd c l1 l2 j e2 hl1 hj⟩

/-- An `Update` oracle for the C8 witness: handler 1 fails, the others
succeed. -/
def c8Upd : Nat → Option String := fun i => if i = 1 then some "update failed" else none

/-- Witness for C8 with three handlers of which the second fails, both
for `CreateCredDir` and for the `Update` fan-out. -/
theorem createDir_update_fail_fast_witness :
    (CreateCredDir [(["m0"], ["e0"], none), (["m1"], ["e1"], some "boom"), ([], [], none)]
        = (([] : List String), ([] : List String), some "boom") ∧
      createCredDirCalls
          [(["m0"], ["e0"], none), (["m1"], ["e1"], some "boom"), ([], [], none)] = 2) ∧
    updateFanout c8Upd () [0, 1, 2] =
      ([Action.update 0 () true, Action.update 1 () false], some "update failed") :=
  createDir_update_fail_fast [(["m0"], ["e0"], none)] ["m1"] ["e1"] "boom" [([], [], none)]
    (by decide) c8Upd () [0] [2] 1 "update failed" (by decide) rfl

/-- Characterisation of Go's `len(s) == 0` test on strings: the length
is zero exactly for the empty string. -/
theorem string_length_eq_zero (s : String) : s.length = 0 ↔ s = "" := by
  obtain ⟨data⟩ := s
  simp only [String.length, List.length_eq_zero]
  constructor
  · intro h
    subst h
    rfl
  · intro h
    have h2 := congrArg String.data h
    simpa using h2

/-- C6: every credential successfully produced by `generateCreds` has a
leaf certificate whose `NotBefore` equals the clock time read during
that generation (`env.now`), so that `NotBefore ≤ env.now ≤ NotAfter`
for a nonnegative configured validity period, and whose
`NotAfter - NotBefore` equals the configured validity period exactly. -/
theorem generateCreds_validity {IP : Type} (env : GenerateEnv IP) (container : Container)
    (certGUID : String) (cred : Credential IP) (hp : 0 ≤ env.validityPeriod)
    (h : generateCreds env container certGUID = .ok cred) :
    ∃ leaf : SignedCertificate IP,
      cred.Cert.head?.map PEMBlock.bytes = some (.leaf leaf) ∧
      leaf.template.NotBefore = env.now ∧
      leaf.template.NotBefore ≤ env.now ∧ env.now ≤ leaf.template.NotAfter ∧
      leaf.template.NotAfter - leaf.template.NotBefore = env.validityPeriod := by
  unfold generateCreds at h
  cases hk : env.keyGen with
  | error e => rw [hk] at h; simp at h
  | ok key =>
    rw [hk] at h
    cases hu : env.uuidGen with
    | error e => rw [hu] at h; simp at h
    | ok guidVal =>
      rw [hu] at h
      cases hs : env.signErr with
      | some e => rw [hs] at h; simp at h
      | none =>
        rw [hs] at h
        simp only [Except.ok.injEq] at h
        subst h
        refine ⟨_, rfl, ?_, ?_, ?_, ?_⟩ <;>
          simp [createCertificateTemplate, pemEncode]
        exact hp

/-- C7: in every credential successfully produced by `generateCreds`,
the leaf template's IP Subject Alternative Name list is exactly the
parsed internal IP when the container's internal IP is non-empty, is
exactly the parsed external IP when the internal IP is empty and the
external one is not, and is empty when both are empty. -/
theorem generateCreds_ipSAN {IP : Type} (env : GenerateEnv IP) (container : Container)
    (certGUID : String) (cred : Credential IP)
    (h : generateCreds env container certGUID = .ok cred) :
    ∃ leaf : SignedCertificate IP,
      cred.Cert.head?.map PEMBlock.bytes = some (.leaf leaf) ∧
      (container.InternalIP ≠ "" →
        leaf.template.IPAddresses = [env.parseIP container.InternalIP]) ∧
      (container.InternalIP = "" → container.ExternalIP ≠ "" →
        leaf.template.IPAddresses = [env.parseIP container.ExternalIP]) ∧
      (container.InternalIP = "" → container.ExternalIP = "" →
        leaf.template.IPAddresses = []) := by
  unfold generateCreds at h
  cases hk : env.keyGen with
  | error e => rw [hk] at h; simp at h
  | ok key =>
    rw [hk] at h
    cases hu : env.uuidGen with
    | error e => rw [hu] at h; simp at h
    | ok guidVal =>
      rw [hu] at h
      cases hs : env.signErr with
      | some e => rw [hs] at h; simp at h
      | none =>
        rw [hs] at h
        simp only [Except.ok.injEq] at h
        subst h
        refine ⟨_, rfl, ?_, ?_, ?_⟩
        · intro hI
          have hne : ¬ container.InternalIP.length = 0 := by
            simpa [string_length_eq_zero] using hI
          simp [createCertificateTemplate, pemEncode, hne]
        · intro hI hE
          have hI0 : container.InternalIP.length = 0 := by
            simp [string_length_eq_zero, hI]
          have hE0 : ¬ container.ExternalIP.length = 0 := by
            simpa [string_length_eq_zero] using hE
          simp [createCertificateTemplate, pemEncode, hI0, hE0]
        · intro hI hE
          have hI0 : container.InternalIP.length = 0 := by
            simp [string_length_eq_zero, hI]
          have hE0 : container.ExternalIP.length = 0 := by
            simp [string_length_eq_zero, hE]
          simp [createCertificateTemplate, pemEncode, hI0, hE0]

/-- C9: every credential successfully produced by `generateCreds` has a
`Cert` field that is exactly two PEM blocks of type `CERTIFICATE` — the
signed leaf first, then the CA certificate's raw DER — and a `Key` field
that is a single PEM block of type `RSA PRIVATE KEY` holding the freshly
generated private key, whose public half is the leaf's public key. -/
theorem generateCreds_pem_chain {IP : Type} (env : GenerateEnv IP) (container : Container)
    (certGUID : String) (cred : Credential IP)
    (h : generateCreds env container certGUID = .ok cred) :
    ∃ (key : RSAPrivateKey) (leaf : SignedCertificate IP),
      env.keyGen = .ok key ∧
      cred.Cert = [⟨certificatePEMBlockType, .leaf leaf⟩,
        ⟨certificatePEMBlockType, .caRaw env.caCertRaw⟩] ∧
      cred.Key = [⟨privateKeyPEMBlockType, .pkcs1 key⟩] ∧
      leaf.publicKey = key.Public := by
  unfold generateCreds at h
  cases hk : env.keyGen with
  | error e => rw [hk] at h; simp at h
  | ok key =>
    rw [hk] at h
    cases hu : env.uuidGen with
    | error e => rw [hu] at h; simp at h
    | ok guidVal =>
      rw [hu] at h
      cases hs : env.signErr with
      | some e => rw [hs] at h; simp at h
      | none =>
        rw [hs] at h
        simp only [Except.ok.injEq] at h
        subst h
        exact ⟨key, _, rfl, rfl, rfl, rfl⟩

/-- A concrete certificate-forge environment for the witnesses: parsed
IPs are the strings themselves, key and UUID generation succeed, signing
succeeds, the clock reads 1000, the validity period is 120. -/
def genEnvW : GenerateEnv String :=
  ⟨fun s => s, .ok ⟨77, 13⟩, .ok 99, none, 1000, 120, 5⟩

/-- A concrete container for the witnesses. -/
def containerW : Container := ⟨"guid-1", "10.0.1.2", "203.0.113.7", ⟨["ou1"]⟩⟩

/-- The credential `generateCreds` produces in `genEnvW` for
`containerW`. -/
def credW : Credential String :=
  { Cert := [⟨certificatePEMBlockType, .leaf
        ⟨{ SerialNumber := 99
           Subject := ⟨"guid-1", ["ou1"]⟩
           IPAddresses := ["10.0.1.2"]
           DNSNames := ["guid-1"]
           NotBefore := 1000
           NotAfter := 1120
           KeyUsage := 21
           ExtKeyUsage := [2, 1] }, ⟨77⟩⟩⟩,
      ⟨certificatePEMBlockType, .caRaw 5⟩]
    Key := [⟨privateKeyPEMBlockType, .pkcs1 ⟨77, 13⟩⟩] }

/-- Witness for C6 at the concrete forge environment. -/
theorem generateCreds_validity_witness :
    (0 ≤ genEnvW.validityPeriod ∧
      generateCreds genEnvW containerW "guid-1" = .ok credW) ∧
    (∃ leaf : SignedCertificate String,
      credW.Cert.head?.map PEMBlock.bytes = some (.leaf leaf) ∧
      leaf.template.NotBefore = genEnvW.now ∧
      leaf.template.NotBefore ≤ genEnvW.now ∧ genEnvW.now ≤ leaf.template.NotAfter ∧
      leaf.template.NotAfter - leaf.template.NotBefore = genEnvW.validityPeriod) :=
  ⟨⟨by decide, rfl⟩,
    generateCreds_validity genEnvW containerW "guid-1" credW (by decide) rfl⟩

/-- Witness for C7 at the concrete forge environment (non-empty internal
IP). -/
theorem generateCreds_ipSAN_witness :
    generateCreds genEnvW containerW "guid-1" = .ok credW ∧
    (∃ leaf : SignedCertificate String,
      credW.Cert.head?.map PEMBlock.bytes = some (.leaf leaf) ∧
      (containerW.InternalIP ≠ "" →
        leaf.template.IPAddresses = [genEnvW.parseIP containerW.InternalIP]) ∧
      (containerW.InternalIP = "" → containerW.ExternalIP ≠ "" →
        leaf.template.IPAddresses = [genEnvW.parseIP containerW.ExternalIP]) ∧
      (containerW.InternalIP = "" → containerW.ExternalIP = "" →
        leaf.template.IPAddresses = [])) :=
  ⟨rfl, generateCreds_ipSAN genEnvW containerW "guid-1" credW rfl⟩

/-- Witness for C9 at the concrete forge environment. -/
theorem generateCreds_pem_chain_witness :
    generateCreds genEnvW containerW "guid-1" = .ok credW ∧
    (∃ (key : RSAPrivateKey) (leaf : SignedCertificate String),
      genEnvW.keyGen = .ok key ∧
      credW.Cert = [⟨certificatePEMBlockType, .leaf leaf⟩,
        ⟨certificatePEMBlockType, .caRaw genEnvW.caCertRaw⟩] ∧
      credW.Key = [⟨privateKeyPEMBlockType, .pkcs1 key⟩] ∧
      leaf.publicKey = key.Public) :=
  ⟨rfl, generateCreds_pem_chain genEnvW containerW "guid-1" credW rfl⟩

end ContainerStore
